import Mathlib

/-!
# Verification of the sshts TCP-over-SSH tunnel core

Shallow embedding of the tunnel core found in `tunnel.go` and `socks5.go` of
the `sshts` package, together with theorems settling the specification's
claims about it.  Go durations (`time.Duration`) are modelled as `Int`
nanoseconds, Go `int`/`int64` as `Int`, byte streams as `List Nat`, and the
synchronisation structure of the goroutines (WaitGroup joins, context
cancellation, the dial-result race) as explicit state passing or as event
times derived step by step from the source's control flow.
-/

namespace Sshts

/-! ## Configuration and construction (`NewTunnel`, tunnel.go lines 40-91) -/

/-- `time.Second` in nanoseconds (`time.Duration` is an `int64` count of ns). -/
def second : Int := 1000000000

/-- The tunnel-relevant fields of `TunnelConfig` (tunnel.go lines 40-52).
The SSH-auth fields are passed through to the transport collaborator and play
no role in the claims. -/
structure TunnelConfig where
  sshTimeout : Int
  dialTimeout : Int
  maxConnections : Int
  bufferSize : Int
deriving DecidableEq

/-- The configuration-derived fields of `Tunnel` (tunnel.go lines 16-37). -/
structure Tunnel where
  localAddr : String
  remoteAddr : String
  maxConnections : Int
  dialTimeout : Int
  bufferSize : Int
deriving DecidableEq

/-- `NewTunnel` (tunnel.go lines 57-91): each zero-valued option is replaced
by its default (`SSHTimeout` 30s, `DialTimeout` 30s, `MaxConnections` 100,
`BufferSize` 32*1024) before the `Tunnel` value is built; the buffer pool is
created with the resulting `BufferSize`. -/
def NewTunnel (localAddr remoteAddr : String) (config : TunnelConfig) : Tunnel :=
  let sshTimeout := if config.sshTimeout = 0 then 30 * second else config.sshTimeout
  let dialTimeout := if config.dialTimeout = 0 then 30 * second else config.dialTimeout
  let maxConnections := if config.maxConnections = 0 then 100 else config.maxConnections
  let bufferSize := if config.bufferSize = 0 then 32 * 1024 else config.bufferSize
  let _ := sshTimeout
  { localAddr := localAddr
    remoteAddr := remoteAddr
    maxConnections := maxConnections
    dialTimeout := dialTimeout
    bufferSize := bufferSize }

/-! ## The accept loop's admission counter (`acceptLoop`, tunnel.go lines 128-170)

The loop body, for each connection returned by `listener.Accept()` and with
`t.maxConnections > 0`, executes

  current := atomic.AddInt64(&t.connCount, 1)
  defer atomic.AddInt64(&t.connCount, -1)
  if current > t.maxConnections \x7b conn.Close(); continue \x7d
  t.wg.Add(1); go func(c) \x7b defer t.wg.Done(); t.handleConnection(c) \x7d(conn)

In Go a `defer` inside a `for` loop is function-scoped: every registered
decrement is pended until `acceptLoop` itself returns.  The model therefore
keeps a count of pended deferred decrements (`deferredDecs`) that are applied
only by `acceptLoopExit`, exactly as the source does. -/

/-- State of the accept loop: the atomic `connCount`, the decrements pended by
`defer` for the loop's final return, the ids dispatched to
`handleConnection`, and the ids closed at admission. -/
structure AcceptState where
  connCount : Int
  deferredDecs : Nat
  admitted : List Nat
  rejected : List Nat
deriving DecidableEq

/-- One iteration of the accept loop on an accepted connection `connId`
(tunnel.go lines 150-168). -/
def acceptStep (maxConnections : Int) (s : AcceptState) (connId : Nat) : AcceptState :=
  if maxConnections > 0 then
    let current := s.connCount + 1
    let s := { s with connCount := current, deferredDecs := s.deferredDecs + 1 }
    if current > maxConnections then
      { s with rejected := s.rejected ++ [connId] }
    else
      { s with admitted := s.admitted ++ [connId] }
  else
    { s with admitted := s.admitted ++ [connId] }

/-- The accept loop run over a finite sequence of accepted connections,
starting from the zero state of a fresh `Tunnel`. -/
def acceptRun (maxConnections : Int) (conns : List Nat) : AcceptState :=
  conns.foldl (acceptStep maxConnections) ⟨0, 0, [], []⟩

/-- When `acceptLoop` returns (context cancelled or accept error after
cancellation), all function-scoped deferred decrements finally run. -/
def acceptLoopExit (s : AcceptState) : AcceptState :=
  { s with connCount := s.connCount - s.deferredDecs, deferredDecs := 0 }

/-- The handler goroutine body spawned for an admitted connection is
`defer t.wg.Done(); t.handleConnection(c)` (tunnel.go lines 164-167): it
contains no operation on `t.connCount`, so a handler task completing changes
the counter by zero. -/
def handlerTaskCounterDelta : Int := 0

/-- The connection counter observed after every dispatched handler task of a
run has completed: the run's counter plus one `handlerTaskCounterDelta` per
admitted connection. -/
def counterAfterAllHandlersDone (maxConnections : Int) (conns : List Nat) : Int :=
  (acceptRun maxConnections conns).connCount +
    handlerTaskCounterDelta * ((acceptRun maxConnections conns).admitted.length : Int)

/-! ## The buffer pool and `forwardData`'s buffer usage
(tunnel.go lines 211-244 and 284-307) -/

/-- The buffer pool, modelled by buffer identities: `Get` reuses a free
buffer when one exists and otherwise allocates a fresh one (the
`sync.Pool.New` function); `Put` returns a buffer to the free list. -/
structure BufferPool where
  bufferSize : Int
  free : List Nat
  nextId : Nat
deriving DecidableEq

/-- `bufferPool.Get` (tunnel.go lines 299-301). -/
def BufferPool.get (bp : BufferPool) : Nat × BufferPool :=
  match bp.free with
  | [] => (bp.nextId, { bp with nextId := bp.nextId + 1 })
  | b :: rest => (b, { bp with free := rest })

/-- `bufferPool.Put` (tunnel.go lines 304-306). -/
def BufferPool.put (bp : BufferPool) (b : Nat) : BufferPool :=
  { bp with free := b :: bp.free }

/-- The buffers referenced by the two directional copy tasks of one
forwarding session. -/
structure ForwardBuffers where
  bufConn1ToConn2 : Nat
  bufConn2ToConn1 : Nat
deriving DecidableEq

/-- `forwardData`'s buffer acquisition (tunnel.go lines 211-214, 225, 231):
`buf := t.bufferPool.Get()` is called once and the same `buf` is passed to
both `t.copyData(conn1, conn2, buf, forwardCtx)` and
`t.copyData(conn2, conn1, buf, forwardCtx)`. -/
def forwardDataBuffers (bp : BufferPool) : ForwardBuffers × BufferPool :=
  let (buf, bp1) := bp.get
  ({ bufConn1ToConn2 := buf, bufConn2ToConn1 := buf }, bp1)

/-! ## Interleaved semantics of the two copy tasks sharing one buffer

`copyData(src, dst, buf, ctx)` loops `io.CopyBuffer(dst, src, buf)`, whose
body repeats: `nr := src.Read(buf); dst.Write(buf[0:nr])`.  Two instances
run concurrently on the SAME `buf` (see `forwardDataBuffers`), so between one
task's `Read` and its `Write` the other task's `Read` may overwrite the
shared buffer.  The model makes the buffer a shared cell of bytes and each
task a two-phase machine (read a chunk into the shared cell, then write the
cell's current first `nr` bytes to its destination); a schedule is a list of
choices of which task steps next.  All chunks used in the theorems have
length one, so slice-length bookkeeping beyond `nr` is immaterial. -/

/-- One directional copy task: whether it has read a chunk and is about to
write it, the byte count `nr` of its own last read, and the chunks remaining
on its source connection. -/
structure CopyTask where
  toWrite : Bool
  nr : Nat
  src : List (List Nat)
deriving DecidableEq

/-- The shared state of a forwarding session: the single pooled buffer's
contents, the two copy tasks, and the bytes delivered to each side.
`taskA` is `copyData(conn1, conn2, buf, ctx)`, `taskB` is
`copyData(conn2, conn1, buf, ctx)`. -/
structure SharedBufState where
  buf : List Nat
  taskA : CopyTask
  taskB : CopyTask
  deliveredToConn2 : List Nat
  deliveredToConn1 : List Nat
deriving DecidableEq

/-- One step of task A: `Read` loads the next chunk of conn1 into the shared
buffer, `Write` appends the shared buffer's current first `nr` bytes to what
conn2 receives. -/
def stepA (s : SharedBufState) : SharedBufState :=
  if s.taskA.toWrite then
    { s with deliveredToConn2 := s.deliveredToConn2 ++ s.buf.take s.taskA.nr
             taskA := { s.taskA with toWrite := false } }
  else
    match s.taskA.src with
    | [] => s
    | c :: rest => { s with buf := c, taskA := ⟨true, c.length, rest⟩ }

/-- One step of task B, symmetric to `stepA` in the other direction. -/
def stepB (s : SharedBufState) : SharedBufState :=
  if s.taskB.toWrite then
    { s with deliveredToConn1 := s.deliveredToConn1 ++ s.buf.take s.taskB.nr
             taskB := { s.taskB with toWrite := false } }
  else
    match s.taskB.src with
    | [] => s
    | c :: rest => { s with buf := c, taskB := ⟨true, c.length, rest⟩ }

/-- Run the two concurrent copy tasks under a schedule (`true` steps task A,
`false` steps task B). -/
def runCopies (sched : List Bool) (s : SharedBufState) : SharedBufState :=
  sched.foldl (fun s pickA => if pickA then stepA s else stepB s) s

/-- Initial session state: the pooled buffer starts zero-length for the
model (its prior contents are never delivered before a read), no task has
read yet, nothing delivered. -/
def initialSession (conn1Sends conn2Sends : List (List Nat)) : SharedBufState :=
  { buf := []
    taskA := ⟨false, 0, conn1Sends⟩
    taskB := ⟨false, 0, conn2Sends⟩
    deliveredToConn2 := []
    deliveredToConn1 := [] }

/-! ## Timing of connection closure in `forwardData` (tunnel.go lines 211-244)

Event times (abstract `Nat` instants) are derived from the source's
synchronisation structure:
* the two copy goroutines end at times `tA` and `tB` (a `copyData` call
  returns only when `io.CopyBuffer` yields an error or the task observes
  `ctx.Done()`; on natural EOF `io.CopyBuffer` returns a nil error and
  `copyData` loops again, lines 247-261);
* `wg.Wait()` (line 243) returns once both copy goroutines have ended;
* `cancel` for `forwardCtx` is DEFERRED (line 217), so it runs when
  `forwardData` returns, i.e. right after `wg.Wait()`;
* the closer goroutine (lines 237-241) closes `conn1` and `conn2` when
  `forwardCtx.Done()` fires, which is the earlier of the tunnel context's
  cancellation and the deferred `cancel`. -/

/-- Instant at which `wg.Wait()` in `forwardData` returns. -/
def wgWaitTime (tA tB : Nat) : Nat := max tA tB

/-- Instant at which the deferred `cancel` of `forwardCtx` runs: at
`forwardData`'s return, directly after `wg.Wait()`. -/
def deferredCancelTime (tA tB : Nat) : Nat := wgWaitTime tA tB

/-- Instant at which `forwardCtx.Done()` fires: the earlier of tunnel-context
cancellation and the deferred `cancel`. -/
def forwardCtxDoneTime (tA tB tunnelCancel : Nat) : Nat :=
  min tunnelCancel (deferredCancelTime tA tB)

/-- Instant at which the closer goroutine closes both connections of the
pair. -/
def connCloseTime (tA tB tunnelCancel : Nat) : Nat :=
  forwardCtxDoneTime tA tB tunnelCancel

/-! ## `handleConnection` (tunnel.go lines 172-208) -/

/-- Outcome of the race in `handleConnection` between the dial worker's
result on `resultChan` and `dialCtx.Done()`. -/
inductive DialOutcome where
  | success (remoteId : Nat) : DialOutcome
  | failed : DialOutcome
  | timedOut : DialOutcome
deriving DecidableEq

/-- Observable effects of one `handleConnection` call. -/
structure HandleResult where
  localClosed : Bool
  remoteClosed : Bool
  pairedForwarding : Bool
  tunnelStopped : Bool
deriving DecidableEq

/-- `handleConnection` branch effects: `defer localConn.Close()` (line 174)
closes the local socket on every return path; on `result.err != nil`
(line 194) or `dialCtx.Done()` (line 199) the function returns before
`remoteConn` is set, so no `defer remoteConn.Close()` is registered and
`forwardData` is never reached; on success both sockets are eventually
closed by the deferred closes around `forwardData`.  No path stops the
tunnel: errors are logged, never propagated. -/
def handleConnection : DialOutcome → HandleResult
  | .failed => ⟨true, false, false, false⟩
  | .timedOut => ⟨true, false, false, false⟩
  | .success _ => ⟨true, true, true, false⟩

/-! ## `Start` (tunnel.go lines 96-125) -/

/-- Which of `Start`'s two acquisition steps succeed: the
`ssh.Dial` of the secure transport and the `net.Listen` local bind. -/
structure StartOutcome where
  sshDialOk : Bool
  listenOk : Bool
deriving DecidableEq

/-- Observable effects of one `Start` call. -/
structure StartResult where
  errorReturned : Bool
  clientCreated : Bool
  clientClosed : Bool
  listenerCreated : Bool
  acceptLoopStarted : Bool
  usable : Bool
deriving DecidableEq

/-- `Start` control flow: `ssh.Dial` first (failure returns the error before
`net.Listen` is attempted, lines 98-101); then `net.Listen` (failure runs
`client.Close()` and returns the error, lines 105-110); only after both
succeed are the cancellable context created and the accept-loop goroutine
launched (lines 112-122). -/
def start (o : StartOutcome) : StartResult :=
  if !o.sshDialOk then
    { errorReturned := true, clientCreated := false, clientClosed := false
      listenerCreated := false, acceptLoopStarted := false, usable := false }
  else if !o.listenOk then
    { errorReturned := true, clientCreated := true, clientClosed := true
      listenerCreated := false, acceptLoopStarted := false, usable := false }
  else
    { errorReturned := false, clientCreated := true, clientClosed := false
      listenerCreated := true, acceptLoopStarted := true, usable := true }

/-! ## `Close` and the WaitGroup join (tunnel.go lines 264-281)

`Close` calls `t.cancelFunc()`, `t.listener.Close()`, `t.client.Close()`
and then `t.wg.Wait()`.  Tasks registered on `t.wg` (an `Add(1)` before the
`go`, a deferred `Done` inside): the accept loop (lines 118-122) and every
handler goroutine (lines 164-167).  The two copy goroutines of a session are
joined by `forwardData`'s LOCAL WaitGroup before `forwardData` returns, and
`forwardData` returns before the handler's `Done`, so they end no later than
their handler.  NOT registered anywhere: the dial worker spawned at lines
186-189 (`go func() \x7b sshConn, err := t.client.Dial(...); resultChan <- ... \x7d`)
and the closer goroutine of `forwardData` (lines 237-241). -/

/-- Instant at which `handleConnection`'s `select` resolves: the earlier of
the dial worker's delivery at `td` and `dialCtx.Done()`, where
`dialCtx = context.WithTimeout(t.ctx, t.dialTimeout)` fires at the earlier
of tunnel cancellation and the dial timeout. -/
def handlerWaitEnd (dialTimeout tunnelCancel td : Nat) : Nat :=
  min td (min tunnelCancel dialTimeout)

/-- Instant at which the dial worker goroutine ends: `t.client.Dial` has no
cancellation hook, so the worker runs until the dial itself resolves at
`td`. -/
def dialWorkerEnd (td : Nat) : Nat := td

/-- Whether `handleConnection` resolved its `select` via `dialCtx.Done()`
rather than via the dial worker's result. -/
def handlerTookTimeoutPath (dialTimeout tunnelCancel td : Nat) : Bool :=
  decide (min tunnelCancel dialTimeout < td)

/-- Whether the dial worker's connection is leaked: when the dial succeeds
after the handler already took the timeout path, the `net.Conn` sent into
the buffered `resultChan` has no receiver and is never closed. -/
def dialConnLeaked (dialSucceeded tookTimeoutPath : Bool) : Bool :=
  dialSucceeded && tookTimeoutPath

/-- The wg-registered task ends of one run: the accept loop and one handler
that ended at `handlerEnd`; `t.wg.Wait()` in `Close` returns once both have
exited. -/
def closeReturnTime (acceptLoopEnd handlerEnd : Nat) : Nat :=
  max acceptLoopEnd handlerEnd

/-- One handler task's lifetime, derived from its session: `forwardData`
joins its two copy goroutines (local `wg.Wait`), then the handler's deferred
socket closes run and the handler returns. -/
structure HandlerRun where
  copyAEnd : Nat
  copyBEnd : Nat
deriving DecidableEq

/-- Instant at which a handler goroutine exits: after `forwardData`'s local
join of its two copy tasks. -/
def handlerExit (r : HandlerRun) : Nat := max r.copyAEnd r.copyBEnd

/-- Instant at which `Close` returns: `t.wg.Wait()` completes once the
accept loop and every registered handler goroutine have exited. -/
def closeJoin (acceptLoopEnd : Nat) (runs : List HandlerRun) : Nat :=
  (runs.map handlerExit).foldl max acceptLoopEnd

/-- The unconditional actions `Close` performs before waiting (lines
265-275): cancel the derived context, close the listener, close the
transport client — each guarded only by the field being non-nil. -/
structure CloseEffects where
  cancelled : Bool
  listenerClosed : Bool
  clientClosed : Bool
deriving DecidableEq

/-- `Close`'s pre-wait actions for a tunnel whose `Start` succeeded (all
three fields are set, so all three actions run). -/
def closeEffects (hasCancel hasListener hasClient : Bool) : CloseEffects :=
  ⟨hasCancel, hasListener, hasClient⟩

/-! ## `StartSocks5Server` (socks5.go lines 11-31) -/

/-- The `SSHConn` fields the SOCKS5 entry point inspects: whether
`s.sshClient == nil`, and `s.status`. -/
structure SSHConn where
  sshClientIsNil : Bool
  status : Int
deriving DecidableEq

/-- Observable effects of one `StartSocks5Server` call. -/
structure Socks5Result where
  errorReturned : Bool
  serverCreated : Bool
  listenerBound : Bool
  conn : SSHConn
deriving DecidableEq

/-- `StartSocks5Server` control flow: the guard
`if s.sshClient == nil || s.status == 0` returns an error before
`socks5.New` runs (lines 12-14); otherwise `socks5.New` may fail (external,
modelled by `newOk`), and only on its success does
`serverSocks.ListenAndServe` bind and serve (external, `serveOk`).  No
branch writes any field of `s`. -/
def StartSocks5Server (s : SSHConn) (newOk serveOk : Bool) : Socks5Result :=
  if s.sshClientIsNil || s.status == 0 then
    { errorReturned := true, serverCreated := false, listenerBound := false, conn := s }
  else if !newOk then
    { errorReturned := true, serverCreated := false, listenerBound := false, conn := s }
  else
    { errorReturned := !serveOk, serverCreated := true, listenerBound := serveOk, conn := s }

end Sshts

/-! ## Helper lemmas -/

theorem le_foldl_max_init (init : Nat) (l : List Nat) : init ≤ l.foldl max init := by
  induction l generalizing init with
  | nil => exact Nat.le_refl _
  | cons a t ih => exact Nat.le_trans (Nat.le_max_left init a) (ih (max init a))

theorem mem_le_foldl_max (l : List Nat) (init x : Nat) (hx : x ∈ l) :
    x ≤ l.foldl max init := by
  induction l generalizing init with
  | nil => cases hx
  | cons a t ih =>
    rcases List.mem_cons.mp hx with h | h
    · subst h
      exact Nat.le_trans (Nat.le_max_right init x) (le_foldl_max_init _ t)
    · exact ih (max init a) h

/-! ## Claims -/

/-- C1: the claim says the connection counter never exceeds a positive
configured maximum and is decremented back when an admission would exceed
it.  The code's decrement is a function-scoped `defer` inside the loop, so
it does not run at rejection: with `maxConnections = 1` and two accepted
sockets, the second socket is indeed closed without dialing, but the
counter stands at 2, strictly above the maximum. -/
theorem acceptLoop_counter_exceeds_max :
    (Sshts.acceptRun 1 [0, 1]).connCount = 2 ∧
    (Sshts.acceptRun 1 [0, 1]).rejected = [1] ∧
    (Sshts.acceptRun 1 [0, 1]).admitted = [0] ∧
    (1 : Int) < (Sshts.acceptRun 1 [0, 1]).connCount := by decide

/-- C2: the claim says the counter is decremented when a handler task
completes, returning to 0 after all connections resolve.  In the code the
handler goroutine contains no counter operation (delta 0); on the spec's own
scenario (`maxConnections = 2`, three simultaneous clients, dials failing)
the counter still reads 3 after all three resolve, and reaches 0 only when
`acceptLoop` itself exits and its pended defers run. -/
theorem handler_completion_leaves_counter :
    (Sshts.acceptRun 2 [0, 1, 2]).admitted = [0, 1] ∧
    (Sshts.acceptRun 2 [0, 1, 2]).rejected = [2] ∧
    Sshts.counterAfterAllHandlersDone 2 [0, 1, 2] = 3 ∧
    ¬ Sshts.counterAfterAllHandlersDone 2 [0, 1, 2] = 0 ∧
    (Sshts.acceptLoopExit (Sshts.acceptRun 2 [0, 1, 2])).connCount = 0 := by decide

/-- C3: the claim says the two directional copy tasks each use their own
pooled buffer.  `forwardData` calls `bufferPool.Get()` once and passes the
same buffer to both `copyData` goroutines: for every pool state the two
tasks reference one and the same buffer. -/
theorem forwardData_single_shared_buffer (bp : Sshts.BufferPool) :
    (Sshts.forwardDataBuffers bp).1.bufConn1ToConn2 =
      (Sshts.forwardDataBuffers bp).1.bufConn2ToConn1 := by
  rcases bp with ⟨sz, free, nid⟩
  cases free <;> rfl

/-- C4: the claim says both connections are closed as soon as either copy
task ends.  The `cancel` of `forwardCtx` is deferred to `forwardData`'s
return, which happens only after `wg.Wait()`, i.e. after BOTH tasks have
ended; with task ends at instants 1 and 5 and no external cancellation
(instant 1000), the closer goroutine fires at 5, not at 1: for the whole
interval the second task stays blocked with nothing closing the pair. -/
theorem forwardData_close_only_after_both :
    Sshts.connCloseTime 1 5 1000 = 5 ∧
    ¬ Sshts.connCloseTime 1 5 1000 = 1 ∧
    Sshts.wgWaitTime 1 5 = 5 := by decide

/-- C5: the claim says bytes are delivered unmodified and in order in each
direction.  Because both directions share one pooled buffer, the schedule
A-reads, B-reads, A-writes makes task A deliver task B's chunk: conn1 sends
byte 1, yet conn2 receives byte 2. -/
theorem sharedBuffer_corrupts_forwarded_bytes :
    (Sshts.runCopies [true, false, true]
        (Sshts.initialSession [[1]] [[2]])).deliveredToConn2 = [2] ∧
    ¬ (Sshts.runCopies [true, false, true]
        (Sshts.initialSession [[1]] [[2]])).deliveredToConn2 = [1] := by decide

/-- C6: on a dial error or a dial timeout, `handleConnection` closes the
local socket (deferred close on every return path), never reaches
`forwardData` (no pair is created, no remote close is registered), and does
not stop the tunnel. -/
theorem handleConnection_dial_failure_closes_local (o : Sshts.DialOutcome)
    (h : o = Sshts.DialOutcome.failed ∨ o = Sshts.DialOutcome.timedOut) :
    (Sshts.handleConnection o).localClosed = true ∧
    (Sshts.handleConnection o).pairedForwarding = false ∧
    (Sshts.handleConnection o).remoteClosed = false ∧
    (Sshts.handleConnection o).tunnelStopped = false := by
  rcases h with h | h <;> subst h <;> exact ⟨rfl, rfl, rfl, rfl⟩

/-- Witness for C6 at the timeout outcome. -/
theorem handleConnection_dial_failure_closes_local_witness :
    (Sshts.handleConnection Sshts.DialOutcome.timedOut).localClosed = true ∧
    (Sshts.handleConnection Sshts.DialOutcome.timedOut).pairedForwarding = false ∧
    (Sshts.handleConnection Sshts.DialOutcome.timedOut).remoteClosed = false ∧
    (Sshts.handleConnection Sshts.DialOutcome.timedOut).tunnelStopped = false :=
  handleConnection_dial_failure_closes_local Sshts.DialOutcome.timedOut (Or.inr rfl)

/-- C7: if the transport dial or the local bind fails, `Start` returns an
error and the tunnel never becomes usable (no accept loop); a transport-dial
failure happens before any listener is created, and a bind failure closes
the already-created transport client. -/
theorem start_failure_releases_resources (o : Sshts.StartOutcome)
    (h : o.sshDialOk = false ∨ o.listenOk = false) :
    (Sshts.start o).errorReturned = true ∧
    (Sshts.start o).usable = false ∧
    (Sshts.start o).acceptLoopStarted = false ∧
    (o.sshDialOk = false → (Sshts.start o).listenerCreated = false) ∧
    (o.sshDialOk = true → o.listenOk = false → (Sshts.start o).clientClosed = true) := by
  rcases o with ⟨sd, lo⟩
  revert h
  cases sd <;> cases lo <;> decide

/-- Witness for C7 with the transport dial succeeding and the bind failing. -/
theorem start_failure_releases_resources_witness :
    (Sshts.start ⟨true, false⟩).errorReturned = true ∧
    (Sshts.start ⟨true, false⟩).usable = false ∧
    (Sshts.start ⟨true, false⟩).acceptLoopStarted = false ∧
    ((⟨true, false⟩ : Sshts.StartOutcome).sshDialOk = false →
      (Sshts.start ⟨true, false⟩).listenerCreated = false) ∧
    ((⟨true, false⟩ : Sshts.StartOutcome).sshDialOk = true →
      (⟨true, false⟩ : Sshts.StartOutcome).listenOk = false →
      (Sshts.start ⟨true, false⟩).clientClosed = true) :=
  start_failure_releases_resources ⟨true, false⟩ (Or.inr rfl)

/-- C8 counterexample: the claim says Close returns only after every spawned
task has exited and no live background task remains.  With dialTimeout 1,
Close cancelling at instant 2 and the dial resolving at instant 100: the
handler takes the timeout path at 1, the accept loop exits at 2, Close's
`wg.Wait` returns at 2 — yet the dial worker goroutine spawned by
`handleConnection` (never registered on the WaitGroup) runs until 100, and
since its dial succeeds after the timeout path was taken, the connection it
sends into the buffered channel is never closed. -/
theorem close_leaves_live_dial_worker :
    Sshts.closeReturnTime 2 (Sshts.handlerWaitEnd 1 2 100) = 2 ∧
    Sshts.dialWorkerEnd 100 = 100 ∧
    Sshts.closeReturnTime 2 (Sshts.handlerWaitEnd 1 2 100) < Sshts.dialWorkerEnd 100 ∧
    Sshts.dialConnLeaked true (Sshts.handlerTookTimeoutPath 1 2 100) = true := by decide

/-- C8 amended: Close cancels the derived context, closes the listener and
the transport client, and returns only after every WaitGroup-registered task
— the accept loop and all handler goroutines, whose two directional copy
tasks are joined inside `forwardData` before the handler exits — has
exited. -/
theorem close_joins_registered_tasks (acceptLoopEnd : Nat)
    (runs : List Sshts.HandlerRun) (r : Sshts.HandlerRun) (hr : r ∈ runs) :
    Sshts.closeEffects true true true = ⟨true, true, true⟩ ∧
    acceptLoopEnd ≤ Sshts.closeJoin acceptLoopEnd runs ∧
    Sshts.handlerExit r ≤ Sshts.closeJoin acceptLoopEnd runs ∧
    r.copyAEnd ≤ Sshts.closeJoin acceptLoopEnd runs ∧
    r.copyBEnd ≤ Sshts.closeJoin acceptLoopEnd runs := by
  have hmem : Sshts.handlerExit r ∈ runs.map Sshts.handlerExit :=
    List.mem_map_of_mem Sshts.handlerExit hr
  have hjoin : Sshts.handlerExit r ≤ Sshts.closeJoin acceptLoopEnd runs :=
    mem_le_foldl_max _ acceptLoopEnd _ hmem
  refine ⟨rfl, le_foldl_max_init _ _, hjoin, ?_, ?_⟩
  · exact Nat.le_trans (Nat.le_max_left _ _) hjoin
  · exact Nat.le_trans (Nat.le_max_right _ _) hjoin

/-- Witness for the amended C8 with one handler whose copy tasks end at 3
and 7 and an accept loop ending at 2. -/
theorem close_joins_registered_tasks_witness :
    (⟨3, 7⟩ : Sshts.HandlerRun) ∈ [(⟨3, 7⟩ : Sshts.HandlerRun)] ∧
    (Sshts.closeEffects true true true = ⟨true, true, true⟩ ∧
     2 ≤ Sshts.closeJoin 2 [⟨3, 7⟩] ∧
     Sshts.handlerExit ⟨3, 7⟩ ≤ Sshts.closeJoin 2 [⟨3, 7⟩] ∧
     (⟨3, 7⟩ : Sshts.HandlerRun).copyAEnd ≤ Sshts.closeJoin 2 [⟨3, 7⟩] ∧
     (⟨3, 7⟩ : Sshts.HandlerRun).copyBEnd ≤ Sshts.closeJoin 2 [⟨3, 7⟩]) :=
  ⟨List.mem_singleton.mpr rfl,
   close_joins_registered_tasks 2 [⟨3, 7⟩] ⟨3, 7⟩ (List.mem_singleton.mpr rfl)⟩

/-- C9: `NewTunnel` replaces a zero `DialTimeout` with 30 seconds, a zero
`MaxConnections` with 100, and a zero `BufferSize` with 32768 bytes, while
keeping every explicitly set positive value unchanged. -/
theorem newTunnel_defaults (la ra : String) (cfg : Sshts.TunnelConfig) :
    (cfg.dialTimeout = 0 →
      (Sshts.NewTunnel la ra cfg).dialTimeout = 30 * Sshts.second) ∧
    (0 < cfg.dialTimeout →
      (Sshts.NewTunnel la ra cfg).dialTimeout = cfg.dialTimeout) ∧
    (cfg.maxConnections = 0 →
      (Sshts.NewTunnel la ra cfg).maxConnections = 100) ∧
    (0 < cfg.maxConnections →
      (Sshts.NewTunnel la ra cfg).maxConnections = cfg.maxConnections) ∧
    (cfg.bufferSize = 0 →
      (Sshts.NewTunnel la ra cfg).bufferSize = 32 * 1024) ∧
    (0 < cfg.bufferSize →
      (Sshts.NewTunnel la ra cfg).bufferSize = cfg.bufferSize) := by
  refine ⟨fun h => ?_, fun h => ?_, fun h => ?_, fun h => ?_, fun h => ?_, fun h => ?_⟩ <;>
    simp only [Sshts.NewTunnel]
  · rw [if_pos h]
  · rw [if_neg (by omega)]
  · rw [if_pos h]
  · rw [if_neg (by omega)]
  · rw [if_pos h]
  · rw [if_neg (by omega)]

/-- Witness for C9 at the all-zero configuration. -/
theorem newTunnel_defaults_witness :
    (Sshts.NewTunnel "a" "b" ⟨0, 0, 0, 0⟩).dialTimeout = 30 * Sshts.second ∧
    (Sshts.NewTunnel "a" "b" ⟨0, 0, 0, 0⟩).maxConnections = 100 ∧
    (Sshts.NewTunnel "a" "b" ⟨0, 0, 0, 0⟩).bufferSize = 32 * 1024 :=
  ⟨(newTunnel_defaults "a" "b" ⟨0, 0, 0, 0⟩).1 rfl,
   (newTunnel_defaults "a" "b" ⟨0, 0, 0, 0⟩).2.2.1 rfl,
   (newTunnel_defaults "a" "b" ⟨0, 0, 0, 0⟩).2.2.2.2.1 rfl⟩

/-- C10: when the SSH client handle is nil or the status field is 0,
`StartSocks5Server` returns an error from its guard before the SOCKS5 server
is created or any listener bound, and the `SSHConn` is left unchanged. -/
theorem startSocks5_requires_connected_client (s : Sshts.SSHConn)
    (newOk serveOk : Bool) (h : s.sshClientIsNil = true ∨ s.status = 0) :
    (Sshts.StartSocks5Server s newOk serveOk).errorReturned = true ∧
    (Sshts.StartSocks5Server s newOk serveOk).serverCreated = false ∧
    (Sshts.StartSocks5Server s newOk serveOk).listenerBound = false ∧
    (Sshts.StartSocks5Server s newOk serveOk).conn = s := by
  have hguard : (s.sshClientIsNil || s.status == 0) = true := by
    rcases h with h | h
    · simp [h]
    · simp [h]
  simp [Sshts.StartSocks5Server, hguard]

/-- Witness for C10 with a nil client handle and status 0. -/
theorem startSocks5_requires_connected_client_witness :
    (Sshts.StartSocks5Server ⟨true, 0⟩ true true).errorReturned = true ∧
    (Sshts.StartSocks5Server ⟨true, 0⟩ true true).serverCreated = false ∧
    (Sshts.StartSocks5Server ⟨true, 0⟩ true true).listenerBound = false ∧
    (Sshts.StartSocks5Server ⟨true, 0⟩ true true).conn = ⟨true, 0⟩ :=
  startSocks5_requires_connected_client ⟨true, 0⟩ true true (Or.inl rfl)
